import Mathlib

/-!
Shallow embedding of the versioned-package uprev and replication logic of
`src/third_party/chromite/service/packages.py`, and of the json5/mojom
presubmit check of
`src/third_party/blink/public/mojom/feature_policy/PRESUBMIT.py`.

Filesystem reads, external process runs, and library collaborators that live
outside this repository (`portage_util`, `uprev_lib`, `osutils`, the presubmit
input API) are treated as inputs of the embedded functions; the control flow,
string manipulation and result construction of the source functions are
translated directly.  Python strings are Lean `String`s; `os.path.join`,
`os.path.basename`, `os.path.dirname`, `str.partition`, `str.strip` and
`str.endswith` are re-implemented below on character lists so that every
definition evaluates inside the kernel.
-/

/-! ## String and path helpers (semantics of the Python library calls used) -/

/-- Whitespace characters recognised by Python `str.strip` that can occur in
the inputs handled here. -/
def isPyWs (c : Char) : Bool :=
  c == ' ' || c == '\t' || c == '\n' || c == '\r'

/-- Python `str.strip()`: drop leading and trailing whitespace. -/
def strip (s : String) : String :=
  String.mk (((s.data.dropWhile isPyWs).reverse.dropWhile isPyWs).reverse)

/-- Core of Python `line.partition('=')`: text before the first `=`, whether a
`=` was found, and the text after it. -/
def partitionCore : List Char → List Char × Bool × List Char
  | [] => ([], false, [])
  | c :: cs =>
    if c = '=' then ([], true, cs)
    else
      let r := partitionCore cs
      (c :: r.1, r.2.1, r.2.2)

/-- Split a character list on a separator character (used for `os.path`
component handling). -/
def splitCharAux (sep : Char) : List Char → List Char → List (List Char)
  | [], acc => [acc.reverse]
  | c :: cs, acc =>
    if c = sep then acc.reverse :: splitCharAux sep cs []
    else splitCharAux sep cs (c :: acc)

/-- Python `os.path.basename`: the final path component. -/
def basename (p : String) : String :=
  String.mk (((splitCharAux '/' p.data []).getLast?).getD [])

/-- Python `os.path.dirname`: everything before the final path component. -/
def dirname (p : String) : String :=
  let parts := (splitCharAux '/' p.data []).map (fun cs => String.mk cs)
  if parts.length ≤ 1 then "" else String.intercalate "/" parts.dropLast

/-- Python `os.path.join` for the relative-path arguments used in this file. -/
def pathJoin (a b : String) : String :=
  if a = "" then b else a ++ "/" ++ b

/-- Python `str.endswith`. -/
def strEndsWith (s suf : String) : Bool :=
  s.data.reverse.take suf.data.length == suf.data.reverse

/-! ## Data model of packages.py -/

/-- Embeds the namedtuple `UprevVersionedPackageModifications` (packages.py
96-97): one version bump together with the files modified for it. -/
structure UprevVersionedPackageModifications where
  new_version : String
  files : List String
  deriving DecidableEq, Repr

/-- Embeds the class `UprevVersionedPackageResult` (packages.py 100-119). -/
structure UprevVersionedPackageResult where
  modified : List UprevVersionedPackageModifications
  deriving DecidableEq, Repr

/-- Embeds `UprevVersionedPackageResult.add_result`: append one
version/files record. -/
def UprevVersionedPackageResult.add_result (r : UprevVersionedPackageResult)
    (new_version : String) (modified_files : List String) :
    UprevVersionedPackageResult :=
  ⟨r.modified ++ [⟨new_version, modified_files⟩]⟩

/-- Embeds the property `UprevVersionedPackageResult.uprevved`:
`bool(self.modified)`. -/
def UprevVersionedPackageResult.uprevved (r : UprevVersionedPackageResult) :
    Bool :=
  !r.modified.isEmpty

/-- The exceptions raised by the embedded code paths, one constructor per
exception class of packages.py (plus Python `KeyError` and `assert`).
`generatedCrosConfigFiles` carries the expected and the actually found file
sets, exactly as the `GeneratedCrosConfigFilesError` constructor stores them
(packages.py 87-93). -/
inductive PackagesError where
  | unknownPackage : String → PackagesError
  | uprevError : String → PackagesError
  | ebuildManifest : String → PackagesError
  | generatedCrosConfigFiles : List String → List String → PackagesError
  | valueError : String → PackagesError
  | keyError : String → PackagesError
  | assertionError : PackagesError
  deriving DecidableEq, Repr

/-! ## Registry (`_UPREV_FUNCS`) -/

/-- Lookup in a Python dict modelled as an association list with unique keys
(insertion order preserved, as in a Python dict). -/
def dictGet {α : Type} : List (String × α) → String → Option α
  | [], _ => none
  | kv :: rest, k => if kv.1 = k then some kv.2 else dictGet rest k

/-- Python `k in d` membership test. -/
def dictContains {α : Type} (d : List (String × α)) (k : String) : Bool :=
  (dictGet d k).isSome

/-- Python dict assignment `d[k] = v`: replace the binding in place when the
key exists, otherwise append it. -/
def dictInsert {α : Type} (d : List (String × α)) (k : String) (v : α) :
    List (String × α) :=
  if dictContains d k then d.map (fun kv => if kv.1 = k then (k, v) else kv)
  else d ++ [(k, v)]

/-- Embeds the registration decorator `uprevs_versioned_package` (packages.py
144-158) acting on the `_UPREV_FUNCS` table: `assert package` rejects an empty
package string, after which the handler is stored with plain dict assignment
`_UPREV_FUNCS[package] = func`. -/
def uprevs_versioned_package {α β : Type} (package : String) (func : α → β)
    (funcs : List (String × (α → β))) :
    Except PackagesError (List (String × (α → β))) :=
  if package = "" then .error .assertionError
  else .ok (dictInsert funcs package func)

/-- Embeds the dispatcher `uprev_versioned_package` (packages.py 270-289):
raise `UnknownPackageError` naming the identity when no handler is registered,
otherwise return the registered handler applied to the call arguments. -/
def uprev_versioned_package {α β : Type} (funcs : List (String × (α → β)))
    (cp : String) (args : α) : Except PackagesError β :=
  match dictGet funcs cp with
  | none => .error (.unknownPackage
      ("Package \"" ++ cp ++ "\" does not have a registered handler."))
  | some f => .ok (f args)

/-! ## Ebuild variable patching (`patch_ebuild_vars`, packages.py 122-141) -/

/-- One line of `patch_ebuild_vars`: `line.partition('=')` splits the line,
the STRIPPED name is tested for membership in `variables`, and the value is
then looked up under the UNSTRIPPED name `variables[varname]` — a lookup that
raises `KeyError` whenever the two differ and only the stripped form is a key.
A matched line is replaced by `varname` + `="` + value + `"` + newline; any
other line is written back unchanged. -/
def patchLine (vars : List (String × String)) (line : String) :
    Except PackagesError String :=
  if (partitionCore line.data).2.1 &&
      dictContains vars (strip (String.mk (partitionCore line.data).1)) then
    match dictGet vars (String.mk (partitionCore line.data).1) with
    | some value =>
      .ok (String.mk (partitionCore line.data).1 ++ "=\"" ++ value ++ "\"\n")
    | none => .error (.keyError (String.mk (partitionCore line.data).1))
  else .ok line

/-- Embeds `patch_ebuild_vars`: the `fileinput` loop processes the lines of
the ebuild in order, writing one output line per input line; a raised
`KeyError` aborts the rewrite. -/
def patch_ebuild_vars (vars : List (String × String)) :
    List String → Except PackagesError (List String)
  | [] => .ok []
  | line :: rest =>
    match patchLine vars line with
    | .error e => .error e
    | .ok s =>
      match patch_ebuild_vars vars rest with
      | .error e => .error e
      | .ok out => .ok (s :: out)

/-! ## Pinned-version uprev (`uprev_ebuild_from_pin`, packages.py 409-453) -/

/-- Result of one embedded `uprev_ebuild_from_pin` run: the returned
`UprevVersionedPackageResult` and the ebuild files present in the package
directory afterwards (the effect of the `os.rename`). -/
structure PinUprevOutcome where
  result : UprevVersionedPackageResult
  filesAfter : List String
  deriving DecidableEq, Repr

/-- Embeds `uprev_ebuild_from_pin`. The filesystem reads are inputs:
`ebuild_paths` is the `portage_util.EBuild.List` result for the package source
directory and `pinContent` the raw content of the version pin file;
`manifestError` is `some stderr` when the external
`portage_util.UpdateEbuildManifest` process fails, `none` when it succeeds.
With a single live ebuild the function renames it to
`<package>-<version>-r1.ebuild` (Python `os.rename`, a no-op when old and new
names coincide), regenerates the manifest, and records
`[new_ebuild, old_ebuild, manifest]` under the pinned version; it never
compares the pinned version against the current one. -/
def uprev_ebuild_from_pin (sourceRoot package_path : String)
    (ebuild_paths : List String) (pinContent : String)
    (manifestError : Option String) :
    Except PackagesError PinUprevOutcome :=
  let package := basename package_path
  let package_src_path := pathJoin sourceRoot package_path
  match ebuild_paths with
  | [] => .error (.uprevError ("No ebuilds found for " ++ package))
  | ebuild_path :: [] =>
    let version := strip pinContent
    let new_ebuild_path :=
      pathJoin package_path (package ++ "-" ++ version ++ "-r1.ebuild")
    let new_ebuild_src_path := pathJoin sourceRoot new_ebuild_path
    let manifest_src_path := pathJoin package_src_path "Manifest"
    match manifestError with
    | some e => .error (.ebuildManifest
        ("Unable to update manifest for " ++ package ++ ": " ++ e))
    | none =>
      .ok ⟨UprevVersionedPackageResult.add_result ⟨[]⟩ version
            [new_ebuild_src_path, ebuild_path, manifest_src_path],
          [new_ebuild_src_path]⟩
  | _ => .error (.uprevError ("Multiple ebuilds found for " ++ package))

/-! ## Chrome primary/follower coordinator (`uprev_chrome`, packages.py
456-491) -/

/-- Modelled from the spec: `constants.CHROME_CP`, the primary Chrome package
identity, is defined in `chromite.lib.constants`, which is not under src/; the
spec calls it the primary package of the primary/follower coordinator. -/
def CHROME_CP : String := "chromeos-base/chromeos-chrome"

/-- Modelled from the spec: the behaviour of `uprev_lib.UprevChromeManager`
(not under src/) abstracted at its interface, per the spec section on the
version-policy collaborator. `outcome p` is the truthiness of
`uprev_manager.uprev(p)`, `modifiedOf p` the files that call contributes to
`modified_ebuilds`, and `versionOf p` the version package `p` lands at after
its uprev — manager state that `uprev_chrome` itself never reads. -/
structure UprevChromeManager where
  outcome : String → Bool
  modifiedOf : String → List String
  versionOf : String → String

/-- Embeds `uprev_chrome`: uprev the primary package first and stop with the
fresh empty result when that reports falsy; otherwise uprev every follower in
`constants.OTHER_CHROME_PACKAGES` (a constant defined outside src/, passed
here as `followers`) and record the accumulated `modified_ebuilds` under the
chrome version derived from the refs. Alongside the result, the list of
packages on which `uprev_manager.uprev` was invoked is returned, in call
order. The source contains no comparison between the versions the followers
land at and the primary version. -/
def uprev_chrome (mgr : UprevChromeManager) (followers : List String)
    (chrome_version : String) : UprevVersionedPackageResult × List String :=
  if mgr.outcome CHROME_CP = false then (⟨[]⟩, [CHROME_CP])
  else
    (UprevVersionedPackageResult.add_result ⟨[]⟩ chrome_version
        (mgr.modifiedOf CHROME_CP ++ (followers.map mgr.modifiedOf).flatten),
      CHROME_CP :: followers)

/-! ## Platform C file generation (`_generate_platform_c_files`, packages.py
494-558) -/

/-- The fixed expected output file set of `cros_config_schema`
(packages.py 549). -/
def expected_c_files : List String := ["config.c", "ec_config.c", "ec_config.h"]

/-- Embeds `_generate_platform_c_files`. `destination_paths` lists the
`destination_path` of each rule of the replication config; `fileExists p`
abstracts `os.path.exists(os.path.join(SOURCE_ROOT, p))` evaluated after the
external `cros_config_schema` run. With no `build_config.json` destination
nothing is generated; with more than one the source raises `ValueError`; with
exactly one, each expected C file found next to it is collected, and a
mismatch between the expected and the collected counts raises
`GeneratedCrosConfigFilesError` carrying both sets. -/
def generate_platform_c_files (destination_paths : List String)
    (fileExists : String → Bool) : Except PackagesError (List String) :=
  let build_config_paths :=
    destination_paths.filter (fun p => strEndsWith p "build_config.json")
  match build_config_paths with
  | [] => .ok []
  | p :: [] =>
    let generated_output_dir := dirname p
    let generated_files :=
      (expected_c_files.filter
          (fun f => fileExists (pathJoin generated_output_dir f))).map
        (fun f => pathJoin generated_output_dir f)
    if expected_c_files.length ≠ generated_files.length then
      .error (.generatedCrosConfigFiles expected_c_files generated_files)
    else .ok generated_files
  | _ => .error (.valueError
      "Expected at most one build_config.json destination path.")

/-! ## Presubmit json5/mojom sync check (PRESUBMIT.py 88-128) -/

/-- A Python runtime value as it appears in the final branch condition of
`_RunJson5ConfigChecks`: either a `str` or a `set` of strings. -/
inductive PyValue where
  | strV : String → PyValue
  | setV : List String → PyValue

/-- Python `==` as used in `json5_enums == mojom_source_path`: values of
different runtime types (a `set` and a `str`) are never equal; two sets are
equal exactly when they have the same members; two strings exactly when they
are the same string. -/
def pyEq : PyValue → PyValue → Bool
  | .strV a, .strV b => a == b
  | .setV a, .setV b => a.all (fun x => b.contains x) && b.all (fun x => a.contains x)
  | _, _ => false

/-- The mojom source path constant of `_RunJson5ConfigChecks`
(PRESUBMIT.py 89-91). -/
def mojom_source_path : String :=
  pathJoin (pathJoin (pathJoin (pathJoin (pathJoin "third_party" "blink")
    "public") "mojom") "feature_policy") "feature_policy_feature.mojom"

/-- The json5 config path constant of `_RunJson5ConfigChecks`
(PRESUBMIT.py 92-94). -/
def json5_config_path : String :=
  pathJoin (pathJoin (pathJoin (pathJoin (pathJoin "third_party" "blink")
    "renderer") "core") "feature_policy") "feature_policy_features.json5"

/-- One `output_api.PresubmitPromptWarning` of `_RunJson5ConfigChecks`,
carrying the computed message pieces and items rather than formatted text
(Python set iteration order makes the exact rendering nondeterministic). -/
structure PresubmitWarning where
  json5_missing : List String
  mojom_missing : List String
  items : List String
  deriving DecidableEq, Repr

/-- Inputs of `_RunJson5ConfigChecks`: the `LocalPath`s of the affected files,
the enum values `ReadHistogramValues` extracts from the mojom file, and the
feature names loaded from the json5 config (both reads are external to the
checked function). -/
structure Json5CheckInput where
  affected : List String
  mojomValues : List String
  json5Names : List String

/-- Embeds `_RunJson5ConfigChecks`: return no warning when neither tracked
file is affected; otherwise compute the two enum sets and their differences,
and gate the warning on the source's final branch condition — a Python `==`
between the json5 enum SET and the mojom source PATH STRING, kept here via
`pyEq` exactly as written in the source. -/
def _RunJson5ConfigChecks (inp : Json5CheckInput) : List PresubmitWarning :=
  if !(inp.affected.contains mojom_source_path) &&
      !(inp.affected.contains json5_config_path) then []
  else
    let mojom_enums := inp.mojomValues.filter (fun v => v != "NotFound")
    let json5_enums := inp.json5Names
    let json5_missing_enums :=
      mojom_enums.filter (fun x => !(json5_enums.contains x))
    let mojom_missing_enums :=
      json5_enums.filter (fun x => !(mojom_enums.contains x))
    if pyEq (.setV json5_enums) (.strV mojom_source_path) then []
    else [⟨json5_missing_enums, mojom_missing_enums,
          [mojom_source_path, json5_config_path]⟩]

/-! ## Helper lemmas about the dict model -/

/-- Looking up a key right after a dict assignment of that key yields the
assigned value. -/
theorem dictGet_dictInsert {α : Type} (d : List (String × α)) (k : String)
    (v : α) : dictGet (dictInsert d k v) k = some v := by
  unfold dictInsert
  by_cases h : dictContains d k = true
  · simp only [h, if_true]
    induction d with
    | nil => simp [dictContains, dictGet] at h
    | cons kv rest ih =>
      by_cases hk : kv.1 = k
      · simp [dictGet, hk]
      · simp only [List.map_cons, if_neg hk]
        have hc : dictContains rest k = true := by
          simpa [dictContains, dictGet, hk] using h
        simp [dictGet, hk, ih hc]
  · simp only [Bool.not_eq_true] at h
    simp only [h, Bool.false_eq_true, if_false]
    induction d with
    | nil => simp [dictGet]
    | cons kv rest ih =>
      have hk : ¬ kv.1 = k := by
        intro hkk
        simp [dictContains, dictGet, hkk] at h
      have hc : dictContains rest k = false := by
        simpa [dictContains, dictGet, hk] using h
      simp [dictGet, hk, ih hc]

/-! ## Claim C4: registry re-registration -/

/-- Registering two handlers for the same identity in sequence, starting from
an empty `_UPREV_FUNCS` table. -/
def doubleRegistered : Except PackagesError (List (String × (Nat → Nat))) :=
  match uprevs_versioned_package "foo/bar" (fun _ => 1) [] with
  | .ok d1 => uprevs_versioned_package "foo/bar" (fun _ => 2) d1
  | .error e => .error e

/-- C4 counterexample: registering a second handler for an identity that
already has one does not fail — both registrations return `.ok` — and
dispatch afterwards returns the second handler's result: the last
registration silently wins, contrary to the claim. -/
theorem register_conflict_does_not_fail :
    doubleRegistered.map (fun d => uprev_versioned_package d "foo/bar" 0)
      = .ok (.ok 2) := by
  rfl

/-- C4 amended: re-registering an identity is not detected at registration
time: for any table and non-empty identity, both registrations succeed and
the table afterwards maps the identity to the handler registered last. The
only registration-time failure is the `assert package` on an empty name. -/
theorem register_last_wins {α β : Type} (d : List (String × (α → β)))
    (k : String) (v1 v2 : α → β) (hk : k ≠ "") :
    ∃ d1 d2,
      uprevs_versioned_package k v1 d = .ok d1 ∧
      uprevs_versioned_package k v2 d1 = .ok d2 ∧
      dictGet d2 k = some v2 := by
  refine ⟨dictInsert d k v1, dictInsert (dictInsert d k v1) k v2, ?_, ?_, ?_⟩
  · simp [uprevs_versioned_package, hk]
  · simp [uprevs_versioned_package, hk]
  · exact dictGet_dictInsert _ _ _

/-- Witness for `register_last_wins` at a concrete identity and handlers. -/
theorem register_last_wins_witness :
    ∃ d1 d2,
      uprevs_versioned_package "foo/bar" (fun _ : Nat => 1) [] = .ok d1 ∧
      uprevs_versioned_package "foo/bar" (fun _ : Nat => 2) d1 = .ok d2 ∧
      dictGet d2 "foo/bar" = some (fun _ : Nat => 2) :=
  register_last_wins [] "foo/bar" _ _ (by decide)

/-! ## Claim C5: dispatch -/

/-- C5: dispatching an identity with no registered handler fails with
`UnknownPackageError` whose message names that identity, and produces no
handler result; dispatching a registered identity returns exactly that
handler's result. -/
theorem uprev_versioned_package_dispatch {α β : Type}
    (funcs : List (String × (α → β))) (cp : String) (args : α) :
    (dictGet funcs cp = none →
      uprev_versioned_package funcs cp args =
        .error (.unknownPackage
          ("Package \"" ++ cp ++ "\" does not have a registered handler."))) ∧
    ∀ f, dictGet funcs cp = some f →
      uprev_versioned_package funcs cp args = .ok (f args) := by
  constructor
  · intro h
    simp [uprev_versioned_package, h]
  · intro f h
    simp [uprev_versioned_package, h]

/-- Witness for `uprev_versioned_package_dispatch`: a one-entry registry,
dispatched at a missing and at the registered identity. -/
theorem uprev_versioned_package_dispatch_witness :
    uprev_versioned_package [("a/b", fun n : Nat => n + 1)] "c/d" 0 =
      .error (.unknownPackage
        "Package \"c/d\" does not have a registered handler.") ∧
    uprev_versioned_package [("a/b", fun n : Nat => n + 1)] "a/b" 41 =
      .ok 42 :=
  ⟨(uprev_versioned_package_dispatch [("a/b", fun n : Nat => n + 1)]
      "c/d" 0).1 rfl,
   (uprev_versioned_package_dispatch [("a/b", fun n : Nat => n + 1)]
      "a/b" 41).2 _ rfl⟩

/-! ## Claim C2: unchanged primary stops the coordinator -/

/-- C2: when the primary Chrome uprev reports unchanged, `uprev_chrome`
returns a result with an empty `modified` list (`uprevved` false) and the
only package whose uprev was invoked is the primary itself — no follower is
ever uprevved. -/
theorem uprev_chrome_unchanged_no_followers (mgr : UprevChromeManager)
    (followers : List String) (v : String)
    (h : mgr.outcome CHROME_CP = false) :
    uprev_chrome mgr followers v = (⟨[]⟩, [CHROME_CP]) ∧
    (uprev_chrome mgr followers v).1.uprevved = false ∧
    ∀ p, p ∈ followers → p ≠ CHROME_CP →
      p ∉ (uprev_chrome mgr followers v).2 := by
  have he : uprev_chrome mgr followers v = (⟨[]⟩, [CHROME_CP]) := by
    simp [uprev_chrome, h]
  refine ⟨he, ?_, ?_⟩
  · rw [he]
    rfl
  · intro p hp hne
    rw [he]
    simp [hne]

/-- A manager whose primary uprev reports unchanged. -/
def unchangedManager : UprevChromeManager :=
  ⟨fun _ => false, fun _ => [], fun _ => ""⟩

/-- Witness for `uprev_chrome_unchanged_no_followers` on a concrete manager
and follower list. -/
theorem uprev_chrome_unchanged_no_followers_witness :
    uprev_chrome unchangedManager ["chromeos-base/chrome-icu"] "83.0.4103.0"
      = (⟨[]⟩, [CHROME_CP]) ∧
    (uprev_chrome unchangedManager ["chromeos-base/chrome-icu"]
        "83.0.4103.0").1.uprevved = false ∧
    ∀ p, p ∈ ["chromeos-base/chrome-icu"] → p ≠ CHROME_CP →
      p ∉ (uprev_chrome unchangedManager ["chromeos-base/chrome-icu"]
            "83.0.4103.0").2 :=
  uprev_chrome_unchanged_no_followers unchangedManager _ _ rfl

/-! ## Claim C1: no follower version-consistency assertion -/

/-- A manager run on which every uprev reports a change and a follower lands
on a version different from the primary's. -/
def mismatchManager : UprevChromeManager :=
  ⟨fun _ => true,
   fun p => [pathJoin "overlay" p],
   fun p => if p = CHROME_CP then "81.0.4044.0" else "80.0.3987.0"⟩

/-- C1 (code-bug evidence): `uprev_chrome` contains no version-consistency
check — its TODO table (packages.py 472-483) documents that after a genuine
version bump it should assert that Chrome and its followers are at the same
package version, but the code never reads the versions the followers land at:
on a run where a follower lands on a different version than the primary, the
coordinator completes normally with a successful result and raises nothing. -/
theorem uprev_chrome_no_consistency_assertion :
    (uprev_chrome mismatchManager ["chromeos-base/chrome-icu"]
        "81.0.4044.0").1.uprevved = true ∧
    mismatchManager.versionOf CHROME_CP = "81.0.4044.0" ∧
    mismatchManager.versionOf "chromeos-base/chrome-icu" ≠ "81.0.4044.0" := by
  refine ⟨rfl, by decide, by decide⟩

/-! ## Claims C8 and C3: pinned-version uprev -/

/-- First pinned uprev run of the spec scenario: the package directory holds
the single live ebuild `foo-1.2.3.ebuild` and the pin file contains
`1.2.4`. -/
def pinFirstRun : Except PackagesError PinUprevOutcome :=
  uprev_ebuild_from_pin "/r" "chromeos-base/foo"
    ["/r/chromeos-base/foo/foo-1.2.3.ebuild"] "1.2.4\n" none

/-- C8: on the scenario directory the pinned uprev renames the ebuild to
`foo-1.2.4-r1.ebuild` (afterwards the old path is gone and only the new one
exists), regenerates the manifest, and returns a single modification record
with version `1.2.4` whose file list is exactly
`[new_ebuild, old_ebuild, manifest]` in that order. -/
theorem uprev_ebuild_from_pin_scenario :
    pinFirstRun = .ok
      ⟨⟨[⟨"1.2.4",
          ["/r/chromeos-base/foo/foo-1.2.4-r1.ebuild",
           "/r/chromeos-base/foo/foo-1.2.3.ebuild",
           "/r/chromeos-base/foo/Manifest"]⟩]⟩,
        ["/r/chromeos-base/foo/foo-1.2.4-r1.ebuild"]⟩ ∧
    "/r/chromeos-base/foo/foo-1.2.3.ebuild" ∉
      (["/r/chromeos-base/foo/foo-1.2.4-r1.ebuild"] : List String) := by
  refine ⟨by rfl, by decide⟩

/-- The second pinned uprev run: the directory state produced by
`pinFirstRun`, uprevved again with the unchanged pin file. -/
def pinSecondRun : Except PackagesError PinUprevOutcome :=
  match pinFirstRun with
  | .ok o => uprev_ebuild_from_pin "/r" "chromeos-base/foo" o.filesAfter
      "1.2.4\n" none
  | .error e => .error e

/-- C3 counterexample: the second invocation with an unchanged pin file does
NOT report unchanged — `uprev_ebuild_from_pin` unconditionally records a
modification, so the second run returns `uprevved = true` with the same
version again. -/
theorem pin_second_run_reports_uprev :
    pinSecondRun.map (fun o => (o.result.uprevved, o.result.modified)) =
      .ok (true,
        [⟨"1.2.4",
          ["/r/chromeos-base/foo/foo-1.2.4-r1.ebuild",
           "/r/chromeos-base/foo/foo-1.2.4-r1.ebuild",
           "/r/chromeos-base/foo/Manifest"]⟩]) := by
  rfl

/-- C3 amended: re-running the pinned uprev on a directory whose single live
ebuild already carries the pinned version succeeds — the rename to the same
name is a no-op, not an error — and leaves the on-disk ebuild set unchanged,
but the run reports an uprev again (a non-empty modification list with the
pinned version, in which old and new ebuild paths coincide) rather than
`unchanged`. -/
theorem uprev_ebuild_from_pin_rerun (sourceRoot package_path pin : String) :
    uprev_ebuild_from_pin sourceRoot package_path
      [pathJoin sourceRoot (pathJoin package_path
        (basename package_path ++ "-" ++ strip pin ++ "-r1.ebuild"))]
      pin none =
    .ok ⟨⟨[⟨strip pin,
          [pathJoin sourceRoot (pathJoin package_path
            (basename package_path ++ "-" ++ strip pin ++ "-r1.ebuild")),
           pathJoin sourceRoot (pathJoin package_path
            (basename package_path ++ "-" ++ strip pin ++ "-r1.ebuild")),
           pathJoin (pathJoin sourceRoot package_path) "Manifest"]⟩]⟩,
        [pathJoin sourceRoot (pathJoin package_path
          (basename package_path ++ "-" ++ strip pin ++ "-r1.ebuild"))]⟩ := by
  rfl

/-! ## Claims C6 and C10: ebuild variable patching -/

/-- The match condition of one `patch_ebuild_vars` line: a `=` was found and
the stripped pre-`=` text is a key of the variable map. -/
def lineMatches (vars : List (String × String)) (line : String) : Bool :=
  (partitionCore line.data).2.1 &&
    dictContains vars (strip (String.mk (partitionCore line.data).1))

/-- Relation between an input line and the corresponding output line of a
successful `patch_ebuild_vars` run: a non-matching line is byte-identical,
and a matching line is rewritten to the raw pre-`=` text, `="`, the value
stored under the raw (unstripped) name, `"` and a newline. -/
def patchedLineRel (vars : List (String × String)) (line outLine : String) :
    Prop :=
  (lineMatches vars line = false → outLine = line) ∧
  ∀ v, lineMatches vars line = true →
    dictGet vars (String.mk (partitionCore line.data).1) = some v →
    outLine = String.mk (partitionCore line.data).1 ++ "=\"" ++ v ++ "\"\n"

/-- A successful `patchLine` result satisfies `patchedLineRel`. -/
theorem patchLine_ok_rel (vars : List (String × String)) (line s : String)
    (h : patchLine vars line = .ok s) : patchedLineRel vars line s := by
  unfold patchLine at h
  constructor
  · intro hc
    unfold lineMatches at hc
    rw [hc] at h
    simp at h
    exact h.symm
  · intro v hc hv
    unfold lineMatches at hc
    rw [hc, hv] at h
    simp at h
    exact h.symm

/-- C6 amended: when `patch_ebuild_vars` succeeds, the output has exactly one
line per input line in the original order (in particular, no assignment is
appended for a key matching no line), every non-matching line — comment lines
included — is byte-identical, and every matching line is rewritten from the
value stored under its raw pre-`=` text. (When a matched line's raw pre-`=`
text is not itself a key — whitespace around the name — the call fails with a
`KeyError` instead of rewriting; see the counterexample below.) -/
theorem patch_ebuild_vars_frame (vars : List (String × String))
    (lines out : List String)
    (h : patch_ebuild_vars vars lines = .ok out) :
    out.length = lines.length ∧
    List.Forall₂ (patchedLineRel vars) lines out := by
  induction lines generalizing out with
  | nil =>
    simp [patch_ebuild_vars] at h
    subst h
    exact ⟨rfl, List.Forall₂.nil⟩
  | cons line rest ih =>
    unfold patch_ebuild_vars at h
    cases hl : patchLine vars line with
    | error e =>
      rw [hl] at h
      exact absurd h (by simp)
    | ok s =>
      rw [hl] at h
      cases hr : patch_ebuild_vars vars rest with
      | error e =>
        rw [hr] at h
        exact absurd h (by simp)
      | ok out2 =>
        rw [hr] at h
        injection h with h
        subst h
        obtain ⟨hlen, hall⟩ := ih out2 hr
        exact ⟨by simp [hlen], List.Forall₂.cons (patchLine_ok_rel vars line s hl) hall⟩

/-- Witness for `patch_ebuild_vars_frame` on a concrete two-line file: the
comment line is untouched and the matching line is rewritten. -/
theorem patch_ebuild_vars_frame_witness :
    (["# c\n", "KEY=\"new\"\n"] : List String).length =
      (["# c\n", "KEY=1\n"] : List String).length ∧
    List.Forall₂ (patchedLineRel [("KEY", "new")])
      ["# c\n", "KEY=1\n"] ["# c\n", "KEY=\"new\"\n"] :=
  patch_ebuild_vars_frame [("KEY", "new")] ["# c\n", "KEY=1\n"]
    ["# c\n", "KEY=\"new\"\n"] (by rfl)

/-- C6 counterexample: on a file whose matching line carries whitespace
between the name and the `=`, the stripped name is a key of the map, yet
`patch_ebuild_vars` raises `KeyError` (the value lookup uses the unstripped
name) instead of producing the rewritten file the claim describes. -/
theorem patch_ebuild_vars_keyerror_counterexample :
    dictContains [("FOO", "2")] (strip "FOO ") = true ∧
    patch_ebuild_vars [("FOO", "2")] ["# comment\n", "FOO =1\n"] =
      .error (.keyError "FOO ") := by
  exact ⟨by decide, by rfl⟩

/-- C10: every line that `patch_ebuild_vars` actually rewrites is replaced by
the raw pre-`=` text followed by `="`, the new value and `"` plus a newline:
double quotes are forced regardless of the original quoting and everything
after the first `=` — inline comments included — is discarded. -/
theorem patchLine_rewrite_shape (vars : List (String × String))
    (line v : String)
    (heq : (partitionCore line.data).2.1 = true)
    (hmem : dictContains vars (strip (String.mk (partitionCore line.data).1))
      = true)
    (hget : dictGet vars (String.mk (partitionCore line.data).1) = some v) :
    patchLine vars line =
      .ok (String.mk (partitionCore line.data).1 ++ "=\"" ++ v ++ "\"\n") := by
  unfold patchLine
  simp [heq, hmem, hget]

/-- Witness for `patchLine_rewrite_shape`: a single-quoted assignment with an
inline comment is rewritten to a double-quoted assignment with the comment
discarded. -/
theorem patchLine_rewrite_shape_witness :
    patchLine [("KEY", "new")] "KEY=1 # old\n" = .ok "KEY=\"new\"\n" := by
  have h := patchLine_rewrite_shape [("KEY", "new")] "KEY=1 # old\n" "new"
    (by decide) (by decide) (by decide)
  simpa using h

/-! ## Claim C7: generated-artifacts verification -/

/-- C7: when the generation step runs (exactly one `build_config.json`
destination), the check returns the full list of generated files when all of
`config.c`, `ec_config.c`, `ec_config.h` exist, and otherwise fails with
`GeneratedCrosConfigFilesError` carrying the expected set and the
actually-found set, the missing files being exactly the expected files whose
path next to the build config is absent (derivable as the difference of the
two carried sets). -/
theorem generate_platform_c_files_check (dests : List String)
    (ex : String → Bool) (p : String)
    (h : dests.filter (fun q => strEndsWith q "build_config.json") = [p]) :
    (expected_c_files.all (fun f => ex (pathJoin (dirname p) f)) = true →
      generate_platform_c_files dests ex =
        .ok (expected_c_files.map (fun f => pathJoin (dirname p) f))) ∧
    (expected_c_files.all (fun f => ex (pathJoin (dirname p) f)) = false →
      generate_platform_c_files dests ex =
        .error (.generatedCrosConfigFiles expected_c_files
          ((expected_c_files.filter
              (fun f => ex (pathJoin (dirname p) f))).map
            (fun f => pathJoin (dirname p) f))) ∧
      expected_c_files.filter (fun f => !(ex (pathJoin (dirname p) f)))
        ≠ []) := by
  unfold generate_platform_c_files
  rw [h]
  cases h1 : ex (pathJoin (dirname p) "config.c") <;>
    cases h2 : ex (pathJoin (dirname p) "ec_config.c") <;>
      cases h3 : ex (pathJoin (dirname p) "ec_config.h") <;>
        simp [expected_c_files, h1, h2, h3]

/-- Witness for `generate_platform_c_files_check`: with all three expected
files present the full list is returned; with `ec_config.h` missing the error
carries the expected set and the two found files. -/
theorem generate_platform_c_files_check_witness :
    generate_platform_c_files ["a/b/build_config.json"] (fun _ => true) =
      .ok ["a/b/config.c", "a/b/ec_config.c", "a/b/ec_config.h"] ∧
    generate_platform_c_files ["a/b/build_config.json"]
        (fun s => s != "a/b/ec_config.h") =
      .error (.generatedCrosConfigFiles
        ["config.c", "ec_config.c", "ec_config.h"]
        ["a/b/config.c", "a/b/ec_config.c"]) := by
  constructor
  · have h := (generate_platform_c_files_check ["a/b/build_config.json"]
      (fun _ => true) "a/b/build_config.json" (by rfl)).1 (by decide)
    simpa using h
  · have h := ((generate_platform_c_files_check ["a/b/build_config.json"]
      (fun s => s != "a/b/ec_config.h") "a/b/build_config.json"
      (by rfl)).2 (by decide)).1
    simpa using h

/-! ## Claim C9: presubmit sync check always warns -/

/-- C9: the final branch condition of `_RunJson5ConfigChecks` compares the
json5 enum set against the mojom source path string, a Python `==` between a
set and a str that is false for every input; consequently whenever the mojom
or json5 file is among the affected files the check returns a non-empty
warning list, even when the two enum sets are exactly in sync. -/
theorem json5_check_always_warns :
    (∀ l s, pyEq (.setV l) (.strV s) = false) ∧
    ∀ inp : Json5CheckInput,
      (inp.affected.contains mojom_source_path = true ∨
        inp.affected.contains json5_config_path = true) →
      _RunJson5ConfigChecks inp ≠ [] := by
  constructor
  · intro l s
    rfl
  · intro inp h
    unfold _RunJson5ConfigChecks
    rcases h with h | h <;> simp at h <;> simp [h, pyEq]

/-- Witness for `json5_check_always_warns`: the mojom file is affected and
the two enum sets have exactly the same members, yet a warning is emitted. -/
theorem json5_check_always_warns_witness :
    _RunJson5ConfigChecks ⟨[mojom_source_path], ["A"], ["A"]⟩ ≠ [] ∧
    pyEq (.setV ["A"]) (.setV ["A"]) = true :=
  ⟨json5_check_always_warns.2 ⟨[mojom_source_path], ["A"], ["A"]⟩
    (Or.inl (by decide)), by decide⟩
